import Mathlib

/-!
# Rocket.Chat.Audit — shallow embedding and verification

A shallow embedding of `rocketchat.audit.py`: the oplog tailer
(`Auditor.tail_latest` / `Auditor.tail`), the mutation classifier
(`Auditor._parse`), the lookup helpers (`RocketChat.get_room_name`,
`RocketChat.get_message_room_and_editor`) and the supervisor loop in
`main`.  Python dictionaries with optional keys become structures of
`Option` fields; a dictionary access `d['k']` raises `KeyError` when the
key is absent, which we model with `Except PyErr`.  MongoDB oplog
documents always carry `op`, `ns`, `o` and `ts`, so those are total
fields.
-/

/-- Python's `str.endswith`: the suffix test on strings, stated on the
character lists so that it evaluates by structural recursion. -/
def pyEndsWith (s suffix : String) : Bool :=
  suffix.data.isSuffixOf s.data

/-- Python runtime errors that the audited code can raise. -/
inductive PyErr where
  | keyError (k : String)
  | typeError (m : String)
  | indexError (m : String)
  | stopIteration
deriving DecidableEq, Repr

/-- A sub-document holding a `username` key (the `u` payload field and the
`editedBy` delta field both have this shape). -/
structure UserRef where
  username : Option String
deriving DecidableEq, Repr

/-- One element of the payload's `attachments` list. -/
structure Attachment where
  title : Option String
  image_type : Option String
deriving DecidableEq, Repr

/-- The `file` sub-document of an upload payload. -/
structure FileRef where
  _id : Option String
deriving DecidableEq, Repr

/-- The `$set` delta of an update oplog entry; `_parse` reads the keys
`editedBy`, `editedAt` and `msg` from it. -/
structure SetDelta where
  editedBy : Option UserRef
  editedAt : Option Nat
  msg : Option String
deriving DecidableEq, Repr

/-- The `o` payload of an oplog document: the inserted document for an
insert, or the wrapper holding `$set` for an update.  Every field is
optional because the Python code accesses them as dictionary keys. -/
structure Payload where
  _id : Option String
  msg : Option String
  rid : Option String
  u : Option UserRef
  ts : Option Nat
  attachments : Option (List Attachment)
  file : Option FileRef
  set : Option SetDelta
deriving DecidableEq, Repr

/-- One oplog document: operation kind `op`, namespace `ns`, payload `o`,
update-target reference `o2`, and the oplog timestamp `ts`. -/
structure OplogDoc where
  op : String
  ns : String
  o : Payload
  o2 : Option Payload
  ts : Nat
deriving DecidableEq, Repr

/-- A document of the `rocketchat_room` collection. -/
structure RoomDoc where
  _id : String
  name : Option String
  t : Option String
  usernames : Option (List String)
deriving DecidableEq, Repr

/-- Events delivered to the `AuditHandler`: `on_message` and `on_file`
callbacks with their argument lists.  `room_name` is optional because
`get_room_name` can return `None`; `username` of a message is optional
because the update path passes a cached editor that may be `None`. -/
inductive Event where
  | message (room_id : String) (room_name : Option String) (ts : String)
      (username : Option String) (msg : String)
  | file (room_id : String) (room_name : Option String) (ts : String)
      (username : String) (title : String) (file_id : String) (image_type : String)
deriving DecidableEq, Repr

/-- Whether an event is a file-upload event. -/
def Event.isFile : Event → Bool
  | .file _ _ _ _ _ _ _ => true
  | .message _ _ _ _ _ => false

/-- The room display name (the `room_name` handler argument) carried by
an event. -/
def Event.roomName : Event → Option String
  | .message _ rn _ _ _ => rn
  | .file _ rn _ _ _ _ _ => rn

/-- The Auditor's `message_cache`: message `_id` → `(room rid, editedBy
username)`.  Modelled as an association list, most recent first. -/
abbrev MsgCache := List (String × String × Option String)

/-- `LRUCache.__setitem__`: inserting overwrites any previous entry for
the same key. -/
def cachePut (c : MsgCache) (k : String) (v : String × Option String) : MsgCache :=
  (k, v) :: c.filter (fun p => p.1 != k)

/-- `collection.find_one({"_id": id})`: the first document whose `_id`
matches, or `None`. -/
def find_one (db : List RoomDoc) (rid : String) : Option RoomDoc :=
  db.find? (fun r => r._id == rid)

/-- `RocketChat.get_room_name`: looks the room up, returns its `name`
when present; for a direct-message room (`t == "d"`) joins the
`usernames` with `"_x_"`; otherwise the Python function falls off the
end and returns `None`.  When the room is not found, `find_one` returns
`None` and the `"name" in room` test raises `TypeError`.  (The
`cachedmethod` decorator only memoises the returned value.) -/
def get_room_name (db : List RoomDoc) (room_id : String) : Except PyErr (Option String) :=
  match find_one db room_id with
  | none => .error (.typeError "argument of type NoneType is not iterable")
  | some room =>
    match room.name with
    | some n => .ok (some n)
    | none =>
      match room.t with
      | none => .error (.keyError "t")
      | some t =>
        if t == "d" then
          match room.usernames with
          | none => .error (.keyError "usernames")
          | some us => .ok (some (String.intercalate "_x_" us))
        else
          .ok none

/-- `RocketChat.get_message_room_and_editor`: the method body is `pass`
(its implementation is commented out in the source), so every call
returns `None`.  The intended result, per the caller's unpacking, would
be a triple (room rid, room name, editedBy username). -/
def get_message_room_and_editor (message_id : String) :
    Option (String × Option String × Option String) :=
  let _ := message_id
  none

/-- `o.get('msg', False)` used as a condition: the key must be present
and its value truthy (a non-empty string). -/
def truthyMsg : Option String → Bool
  | some m => m != ""
  | none => false

/-- The insert branch of `Auditor._parse` (`op == 'i'`, namespace and
truthy `msg` already checked): resolves the room name and calls
`on_message(o['rid'], room_name, str(o['ts']), o['u']['username'], o['msg'])`.
The cache is returned untouched — this branch performs no cache write. -/
def parseInsert (db : List RoomDoc) (cache : MsgCache) (o : Payload) :
    Except PyErr (List Event × MsgCache) :=
  match o.rid with
  | none => .error (.keyError "rid")
  | some rid =>
    match get_room_name db rid with
    | .error e => .error e
    | .ok room_name =>
      match o.ts with
      | none => .error (.keyError "ts")
      | some ts =>
        match o.u with
        | none => .error (.keyError "u")
        | some u =>
          match u.username with
          | none => .error (.keyError "username")
          | some username =>
            match o.msg with
            | none => .error (.keyError "msg")
            | some m =>
              .ok ([.message rid room_name (toString ts) (some username) m], cache)

/-- The update branch of `Auditor._parse` (`op == 'u'` and namespace
already checked): reads `o['$set']` and `doc['o2']['_id']`, then unpacks
the result of `get_message_room_and_editor`; since that stub returns
`None`, the unpacking `rid, room_name, edited_by = ...` raises
`TypeError` — the code after it (editor resolution, cache write, event
emission) is kept for faithfulness but is unreachable. -/
def parseUpdate (db : List RoomDoc) (cache : MsgCache) (o : Payload) (o2? : Option Payload) :
    Except PyErr (List Event × MsgCache) :=
  match o.set with
  | none => .error (.keyError "$set")
  | some s =>
    match o2? with
    | none => .error (.keyError "o2")
    | some o2 =>
      match o2._id with
      | none => .error (.keyError "_id")
      | some msg_id =>
        match get_message_room_and_editor msg_id with
        | none => .error (.typeError "cannot unpack non-iterable NoneType object")
        | some (rid, _room_name, edited_by0) =>
          let edited_by : Except PyErr (Option String) :=
            match s.editedBy with
            | some eb =>
              match eb.username with
              | none => .error (.keyError "username")
              | some e => .ok (some e)
            | none => .ok edited_by0
          match edited_by with
          | .error e => .error e
          | .ok edited_by =>
            let cache2 := cachePut cache msg_id (rid, edited_by)
            match o.rid with
            | none => .error (.keyError "rid")
            | some orid =>
              match get_room_name db orid with
              | .error e => .error e
              | .ok room_name =>
                match s.editedAt with
                | none => .error (.keyError "editedAt")
                | some ea =>
                  match s.msg with
                  | none => .error (.keyError "msg")
                  | some m =>
                    .ok ([.message rid room_name (toString ea) edited_by m], cache2)

/-- The file branch of `Auditor._parse` (namespace and the presence of
an `attachments` key already checked): calls `on_file` with the first
attachment's title and `image_type`, the payload room, the message
timestamp and the `file` id.  No cache write. -/
def parseFile (db : List RoomDoc) (cache : MsgCache) (o : Payload) :
    Except PyErr (List Event × MsgCache) :=
  match o.attachments with
  | none => .error (.keyError "attachments")
  | some atts =>
    match atts.head? with
    | none => .error (.indexError "list index out of range")
    | some att =>
      match att.title with
      | none => .error (.keyError "title")
      | some title =>
        match o.rid with
        | none => .error (.keyError "rid")
        | some rid =>
          match get_room_name db rid with
          | .error e => .error e
          | .ok room_name =>
            match o.ts with
            | none => .error (.keyError "ts")
            | some ts =>
              match o.u with
              | none => .error (.keyError "u")
              | some u =>
                match u.username with
                | none => .error (.keyError "username")
                | some username =>
                  match o.file with
                  | none => .error (.keyError "file")
                  | some f =>
                    match f._id with
                    | none => .error (.keyError "_id")
                    | some fid =>
                      match att.image_type with
                      | none => .error (.keyError "image_type")
                      | some imt =>
                        .ok ([.file rid room_name (toString ts) username title fid imt],
                             cache)

/-- `Auditor._parse`: classifies one oplog document and returns the
emitted handler events together with the updated `message_cache`, or
the Python error the branch raises.  The three `if`/`elif` guards of
the source dispatch to the branch bodies `parseInsert`, `parseUpdate`
and `parseFile`; anything else is silently ignored. -/
def parse (db : List RoomDoc) (cache : MsgCache) (doc : OplogDoc) :
    Except PyErr (List Event × MsgCache) :=
  if doc.op == "i" && pyEndsWith doc.ns "rocketchat_message" && truthyMsg doc.o.msg then
    parseInsert db cache doc.o
  else if doc.op == "u" && pyEndsWith doc.ns "rocketchat_message" then
    parseUpdate db cache doc.o doc.o2
  else if pyEndsWith doc.ns "rocketchat_message" && doc.o.attachments.isSome then
    parseFile db cache doc.o
  else
    .ok ([], cache)

/-- `Auditor.tail`: the cursor `oplog.find({'ts': {'$gt': ts}})` delivers,
in natural order, the entries whose timestamp is strictly greater than
`ts`.  We model the entries a fixed log state yields. -/
def tail (oplog : List OplogDoc) (ts : Nat) : List OplogDoc :=
  oplog.filter (fun d => ts < d.ts)

/-- The resume timestamp picked by `Auditor.tail_latest`:
`oplog.find().sort('$natural', DESCENDING).limit(-10).next()['ts']` —
the first document of the newest-first batch, i.e. the newest entry of
the log; `next()` raises `StopIteration` on an empty log. -/
def tail_latest_resume (oplog : List OplogDoc) : Option Nat :=
  ((oplog.reverse).take 10).head?.map (fun d => d.ts)

/-- `Auditor.tail_latest`: derive the resume timestamp, then tail from
strictly after it. -/
def tail_latest (oplog : List OplogDoc) : Option (List OplogDoc) :=
  (tail_latest_resume oplog).map (tail oplog)

/-- Modelled from the spec's words for comparison (claim C4): "reading
the most recent batch of up to 10 entries ordered newest-first and
taking the oldest entry of that batch as the last-seen timestamp". -/
def spec_resume_point (oplog : List OplogDoc) : Option Nat :=
  ((oplog.reverse).take 10).getLast?.map (fun d => d.ts)

/-- Outcome of one `auditor.tail_latest(oplog)` call inside `main`'s
`while True` loop: either it raises an exception or it returns. -/
inductive TailOutcome where
  | raises
  | returns
deriving DecidableEq, Repr

/-- Sleeps executed by one loop iteration of `main`: `time.sleep(1)`
stands after `tail_latest` inside the `try`, so an exception skips it
and the `except` block only prints the traceback. -/
def iterSleepCount : TailOutcome → Nat
  | .raises => 0
  | .returns => 1

/-- `main`'s supervisor loop over a finite prefix of tail outcomes:
returns (iterations executed, total sleeps).  The loop is `while True`
with a catch-all `except`, so it consumes every outcome. -/
def superviseSteps : List TailOutcome → Nat × Nat
  | [] => (0, 0)
  | oc :: rest =>
    let r := superviseSteps rest
    (r.1 + 1, iterSleepCount oc + r.2)

deriving instance DecidableEq for Except

/-- A payload with every optional key absent, for concrete oplog
documents used in the theorems below. -/
def blankPayload : Payload :=
  ⟨none, none, none, none, none, none, none, none⟩

/-- The update branch always raises: every path through `parseUpdate`
reaches either a missing-key error or the `TypeError` from unpacking the
`None` returned by the `get_message_room_and_editor` stub. -/
theorem parseUpdate_error (db : List RoomDoc) (cache : MsgCache) (o : Payload)
    (o2? : Option Payload) : ∃ e, parseUpdate db cache o o2? = Except.error e := by
  cases hset : o.set with
  | none => exact ⟨.keyError "$set", by simp [parseUpdate, hset]⟩
  | some s =>
    cases ho2 : o2? with
    | none => exact ⟨.keyError "o2", by simp [parseUpdate, hset, ho2]⟩
    | some o2 =>
      cases hid : o2._id with
      | none => exact ⟨.keyError "_id", by simp [parseUpdate, hset, ho2, hid]⟩
      | some msg_id =>
        exact ⟨.typeError "cannot unpack non-iterable NoneType object",
          by simp [parseUpdate, hset, ho2, hid, get_message_room_and_editor]⟩

/-- The insert branch never touches the cache: on success it returns the
cache it was given. -/
theorem parseInsert_cache (db : List RoomDoc) (cache : MsgCache) (o : Payload)
    (evs : List Event) (c2 : MsgCache) (h : parseInsert db cache o = .ok (evs, c2)) :
    c2 = cache := by
  unfold parseInsert at h
  iterate 8 (all_goals try split at h)
  all_goals simp_all

/-- The file branch never touches the cache: on success it returns the
cache it was given. -/
theorem parseFile_cache (db : List RoomDoc) (cache : MsgCache) (o : Payload)
    (evs : List Event) (c2 : MsgCache) (h : parseFile db cache o = .ok (evs, c2)) :
    c2 = cache := by
  unfold parseFile at h
  iterate 12 (all_goals try split at h)
  all_goals simp_all

/-- C7: an insert entry into the messages collection for message M in
room R by user U with non-empty text T makes classify() emit exactly one
MessageEvent — a single `on_message` callback — carrying room R, the
entry's timestamp, username U and text T. -/
theorem c7_insert_emits_one_message
    (db : List RoomDoc) (cache : MsgCache) (ns m rid usern : String)
    (pid : Option String) (ts : Nat) (att : Option (List Attachment))
    (f : Option FileRef) (sd : Option SetDelta) (o2 : Option Payload) (ots : Nat)
    (rn : Option String)
    (hns : pyEndsWith ns "rocketchat_message" = true)
    (hm : m ≠ "")
    (hroom : get_room_name db rid = .ok rn) :
    parse db cache
      ⟨"i", ns, ⟨pid, some m, some rid, some ⟨some usern⟩, some ts, att, f, sd⟩, o2, ots⟩
      = .ok ([Event.message rid rn (toString ts) (some usern) m], cache) := by
  simp [parse, parseInsert, truthyMsg, hns, hroom, hm]

/-- Witness for C7 at a concrete insert entry. -/
theorem c7_insert_emits_one_message_witness :
    parse [⟨"r1", some "general", some "c", none⟩] []
      ⟨"i", "rocketchat.rocketchat_message",
        ⟨some "m1", some "hello", some "r1", some ⟨some "alice"⟩, some 5, none, none, none⟩,
        none, 100⟩
      = .ok ([Event.message "r1" (some "general") "5" (some "alice") "hello"], []) :=
  c7_insert_emits_one_message _ _ _ _ _ _ _ _ _ _ _ _ _ _
    (by decide) (by decide) (by decide)

/-- C1: the claim says an update for a message with no cached edit
context yields a sentinel `#unknown`/`unknown.user` MessageEvent without
failing; in the code `get_message_room_and_editor` is an unimplemented
stub returning `None`, so unpacking its result raises `TypeError` and
every update entry makes classify() fail, regardless of the cache or
database state. -/
theorem c1_update_always_fails
    (db : List RoomDoc) (cache : MsgCache) (doc : OplogDoc)
    (h : (doc.op == "u" && pyEndsWith doc.ns "rocketchat_message") = true) :
    ∃ e, parse db cache doc = Except.error e := by
  obtain ⟨hop, hns⟩ := (Bool.and_eq_true _ _).mp h
  have hop : doc.op = "u" := eq_of_beq hop
  have hui : (("u" : String) == "i") = false := by decide
  obtain ⟨e, he⟩ := parseUpdate_error db cache doc.o doc.o2
  exact ⟨e, by simp [parse, hop, hns, hui, he]⟩

/-- Witness for C1: a concrete update entry with an empty cache makes
classify() raise rather than emit a sentinel event. -/
theorem c1_update_always_fails_witness :
    ∃ e, parse [] []
      ⟨"u", "rocketchat.rocketchat_message",
        ⟨none, none, none, none, none, none, none, some ⟨none, some 7, some "T"⟩⟩,
        some ⟨some "m1", none, none, none, none, none, none, none⟩, 101⟩
      = Except.error e :=
  c1_update_always_fails [] [] _ (by decide)

/-- C6: the claim describes the editor-resolution logic of the update
branch (delta's `editedBy` username if present, else the cached editor;
context written back to the cache); that logic sits after the unpacking
of `get_message_room_and_editor`'s result, and since that stub returns
`None`, classify() raises `TypeError` on every update — even one whose
delta carries an explicit editor — before any editor is resolved or any
cache write happens. -/
theorem c6_editor_resolution_unreachable
    (db : List RoomDoc) (cache : MsgCache) (ns msg_id editor : String)
    (ea : Option Nat) (dm : Option String) (o2p : Payload) (ots : Nat)
    (hns : pyEndsWith ns "rocketchat_message" = true)
    (hid : o2p._id = some msg_id) :
    parse db cache
      ⟨"u", ns,
        ⟨none, none, none, none, none, none, none, some ⟨some ⟨some editor⟩, ea, dm⟩⟩,
        some o2p, ots⟩
      = .error (.typeError "cannot unpack non-iterable NoneType object") := by
  have hui : (("u" : String) == "i") = false := by decide
  have huu : (("u" : String) == "u") = true := by decide
  simp [parse, parseUpdate, hns, hui, huu, hid, get_message_room_and_editor]

/-- Witness for C6: a concrete update whose delta has editedBy user
"eve" still fails instead of emitting an event with editor "eve". -/
theorem c6_editor_resolution_unreachable_witness :
    parse [] []
      ⟨"u", "rocketchat.rocketchat_message",
        ⟨none, none, none, none, none, none, none,
          some ⟨some ⟨some "eve"⟩, some 8, some "T2"⟩⟩,
        some ⟨some "m1", none, none, none, none, none, none, none⟩, 102⟩
      = .error (.typeError "cannot unpack non-iterable NoneType object") :=
  c6_editor_resolution_unreachable [] [] _ "m1" "eve" _ _ _ _
    (by decide) (by decide)

/-- C2 counterexample: a concrete insert entry for message "m2" in room
"r2" is classified and emits its MessageEvent, but the edit-context
cache afterwards is still empty — no `{room, lastEditor: unknown}`
entry keyed by "m2" was written. -/
theorem c2_counterexample :
    parse [⟨"r2", some "eng", some "c", none⟩] []
      ⟨"i", "rocketchat.rocketchat_message",
        ⟨some "m2", some "hi", some "r2", some ⟨some "bob"⟩, some 6, none, none, none⟩,
        none, 200⟩
      = .ok ([Event.message "r2" (some "eng") "6" (some "bob") "hi"], [])
    ∧ ¬ ∃ v, ("m2", v) ∈ ([] : MsgCache) := by
  refine ⟨by decide, ?_⟩
  rintro ⟨v, hv⟩
  simp at hv

/-- C2 amended: classify() writes nothing into the edit-context cache on
an insert — whenever classification succeeds, the cache comes back
unchanged (the only cache write in `_parse` lies in the unreachable tail
of the update branch). -/
theorem c2_successful_classify_preserves_cache
    (db : List RoomDoc) (cache : MsgCache) (doc : OplogDoc)
    (evs : List Event) (cache2 : MsgCache)
    (h : parse db cache doc = .ok (evs, cache2)) : cache2 = cache := by
  unfold parse at h
  split at h
  · exact parseInsert_cache _ _ _ _ _ h
  · split at h
    · obtain ⟨e, he⟩ := parseUpdate_error db cache doc.o doc.o2
      rw [he] at h
      cases h
    · split at h
      · exact parseFile_cache _ _ _ _ _ h
      · simp_all

/-- Witness for C2's amended statement at a concrete insert entry and a
non-empty starting cache. -/
theorem c2_successful_classify_preserves_cache_witness :
    ([("k", ("r0", Option.some "carol"))] : MsgCache)
      = [("k", ("r0", Option.some "carol"))] :=
  c2_successful_classify_preserves_cache
    [⟨"r2", some "eng", some "c", none⟩]
    [("k", ("r0", Option.some "carol"))]
    ⟨"i", "rocketchat.rocketchat_message",
      ⟨some "m2", some "hi", some "r2", some ⟨some "bob"⟩, some 6, none, none, none⟩,
      none, 200⟩
    [Event.message "r2" (some "eng") "6" (some "bob") "hi"]
    [("k", ("r0", Option.some "carol"))]
    (by decide)

/-- C3 counterexample: an insert entry whose payload has both a
non-empty `msg` and an `attachments` list is handled by the insert
rule, which comes first — classify() emits a MessageEvent, not a
FileUploadEvent, so attachment presence does not take precedence. -/
theorem c3_counterexample :
    parse [⟨"r3", some "general", some "c", none⟩] []
      ⟨"i", "rocketchat.rocketchat_message",
        ⟨some "m3", some "a caption", some "r3", some ⟨some "alice"⟩, some 9,
          some [⟨some "foo.png", some "image/png"⟩], some ⟨some "f1"⟩, none⟩,
        none, 300⟩
      = .ok ([Event.message "r3" (some "general") "9" (some "alice") "a caption"], [])
    ∧ (Event.message "r3" (some "general") "9" (some "alice") "a caption").isFile
        = false := by
  exact ⟨by decide, by decide⟩

/-- C3 amended: the attachments rule is checked last, not first — an
entry that matches the insert-with-text or update rule is handled by
that rule even when it carries attachments; a FileUploadEvent (first
attachment's title and image type, the referenced file identity, the
payload's room) is emitted exactly when neither earlier rule matches
and the namespace targets the messages collection with an `attachments`
key present. -/
theorem c3_attachments_checked_last
    (db : List RoomDoc) (cache : MsgCache) (doc : OplogDoc)
    (att : Attachment) (rest : List Attachment)
    (title rid usern fid imt : String) (ts : Nat) (rn : Option String)
    (h1 : (doc.op == "i" && pyEndsWith doc.ns "rocketchat_message"
            && truthyMsg doc.o.msg) = false)
    (h2 : (doc.op == "u" && pyEndsWith doc.ns "rocketchat_message") = false)
    (hns : pyEndsWith doc.ns "rocketchat_message" = true)
    (hatt : doc.o.attachments = some (att :: rest))
    (htitle : att.title = some title)
    (hrid : doc.o.rid = some rid)
    (hroom : get_room_name db rid = .ok rn)
    (hts : doc.o.ts = some ts)
    (hu : doc.o.u = some ⟨some usern⟩)
    (hf : doc.o.file = some ⟨some fid⟩)
    (himt : att.image_type = some imt) :
    parse db cache doc
      = .ok ([Event.file rid rn (toString ts) usern title fid imt], cache) := by
  simp only [hns, Bool.and_true, Bool.true_and] at h1 h2
  simp [parse, parseFile, h1, h2, hns, hatt, htitle, hrid, hroom, hts, hu, hf, himt]

/-- Witness for C3's amended statement: an insert without a text field
but with an attachment is classified as a file upload. -/
theorem c3_attachments_checked_last_witness :
    parse [⟨"r4", some "files", some "c", none⟩] []
      ⟨"i", "rocketchat.rocketchat_message",
        ⟨some "m4", none, some "r4", some ⟨some "dan"⟩, some 11,
          some [⟨some "foo.png", some "image/png"⟩], some ⟨some "f1"⟩, none⟩,
        none, 400⟩
      = .ok ([Event.file "r4" (some "files") "11" "dan" "foo.png" "f1" "image/png"], []) :=
  c3_attachments_checked_last
    [⟨"r4", some "files", some "c", none⟩] []
    ⟨"i", "rocketchat.rocketchat_message",
      ⟨some "m4", none, some "r4", some ⟨some "dan"⟩, some 11,
        some [⟨some "foo.png", some "image/png"⟩], some ⟨some "f1"⟩, none⟩,
      none, 400⟩
    ⟨some "foo.png", some "image/png"⟩ [] "foo.png" "r4" "dan" "f1" "image/png" 11
    (some "files")
    (by decide) (by decide) (by decide) (by decide) (by decide) (by decide)
    (by decide) (by decide) (by decide) (by decide) (by decide)

/-- C4 counterexample: on the two-entry log with timestamps 1 and 2 the
code resumes from timestamp 2 — the ts of the FIRST document of the
newest-first batch, i.e. the newest entry — while the claim's "oldest of
the batch" rule would pick 1; the tailed cursor consequently yields
nothing instead of re-delivering the newest entry. -/
theorem c4_counterexample :
    tail_latest_resume
        [⟨"n", "x", blankPayload, none, 1⟩, ⟨"n", "x", blankPayload, none, 2⟩] = some 2
    ∧ spec_resume_point
        [⟨"n", "x", blankPayload, none, 1⟩, ⟨"n", "x", blankPayload, none, 2⟩] = some 1
    ∧ tail_latest
        [⟨"n", "x", blankPayload, none, 1⟩, ⟨"n", "x", blankPayload, none, 2⟩]
        = some [] := by
  exact ⟨by decide, by decide, by decide⟩

/-- C4 amended: for every non-empty log, `tail_latest` resumes from the
timestamp of the newest (last-appended) entry — the first element of
the newest-first batch of up to 10 — and the subsequent cursor yields
exactly the entries with timestamp strictly greater than it. -/
theorem c4_resume_from_newest (oplog : List OplogDoc) (last : OplogDoc)
    (h : oplog.getLast? = some last) :
    tail_latest_resume oplog = some last.ts
    ∧ tail_latest oplog = some (oplog.filter (fun d => last.ts < d.ts)) := by
  have hrev : oplog.reverse.head? = some last := by
    rw [List.head?_reverse]; exact h
  have hres : tail_latest_resume oplog = some last.ts := by
    unfold tail_latest_resume
    rw [List.head?_take, if_neg (by omega), hrev]
    rfl
  exact ⟨hres, by unfold tail_latest tail; rw [hres]; rfl⟩

/-- Witness for C4's amended statement on a concrete two-entry log. -/
theorem c4_resume_from_newest_witness :
    tail_latest_resume
        [⟨"n", "x", blankPayload, none, 3⟩, ⟨"n", "x", blankPayload, none, 7⟩]
      = some (OplogDoc.ts ⟨"n", "x", blankPayload, none, 7⟩)
    ∧ tail_latest
        [⟨"n", "x", blankPayload, none, 3⟩, ⟨"n", "x", blankPayload, none, 7⟩]
      = some ([⟨"n", "x", blankPayload, none, 3⟩,
               ⟨"n", "x", blankPayload, none, 7⟩].filter
                (fun d => (OplogDoc.ts ⟨"n", "x", blankPayload, none, 7⟩) < d.ts)) :=
  c4_resume_from_newest _ _ (by decide)

/-- C5 counterexample: a run in which the single tail attempt raises
executes one loop iteration with ZERO sleeps, not the one backoff sleep
per failure that the claim asserts: `time.sleep(1)` sits inside the
`try` after `tail_latest`, so an exception jumps straight to `except`
and the retry is immediate. -/
theorem c5_counterexample :
    superviseSteps [TailOutcome.raises] = (1, 0)
    ∧ superviseSteps [TailOutcome.raises] ≠ (1, 1) := by
  exact ⟨by decide, by decide⟩

/-- C5 amended: the supervisor loop never terminates on its own — it
executes one iteration per tail outcome, however many failures occur —
but a caught failure is followed by zero backoff sleeps (the retry is
immediate); the fixed 1-second sleep runs only after a tail call that
returns without raising. -/
theorem c5_supervisor_runs_forever_no_sleep_on_failure (run : List TailOutcome) :
    (superviseSteps run).1 = run.length
    ∧ (superviseSteps run).2
        = (run.filter (fun oc => oc == TailOutcome.returns)).length := by
  induction run with
  | nil => exact ⟨rfl, rfl⟩
  | cons oc rest ih =>
    cases oc <;>
      simp [superviseSteps, iterSleepCount, List.filter_cons, ih.1, ih.2,
        Nat.add_comm,
        show (TailOutcome.raises == TailOutcome.returns) = false from rfl,
        show (TailOutcome.returns == TailOutcome.returns) = true from rfl]

/-- Any message event emitted by the insert branch carries the room id
read from the payload's `rid` key and the room name returned by
`get_room_name` for it. -/
theorem parseInsert_message_fields (db : List RoomDoc) (cache : MsgCache) (o : Payload)
    (evs : List Event) (c2 : MsgCache)
    (rid : String) (rn : Option String) (ts : String) (usern : Option String) (m : String)
    (h : parseInsert db cache o = .ok (evs, c2))
    (hmem : Event.message rid rn ts usern m ∈ evs) :
    o.rid = some rid ∧ get_room_name db rid = .ok rn := by
  unfold parseInsert at h
  iterate 8 (all_goals try split at h)
  all_goals simp_all
  all_goals (obtain ⟨hevs, hc⟩ := h; subst hevs; simp_all)

/-- The file branch never emits a message event. -/
theorem parseFile_no_message (db : List RoomDoc) (cache : MsgCache) (o : Payload)
    (evs : List Event) (c2 : MsgCache)
    (rid : String) (rn : Option String) (ts : String) (usern : Option String) (m : String)
    (h : parseFile db cache o = .ok (evs, c2))
    (hmem : Event.message rid rn ts usern m ∈ evs) : False := by
  unfold parseFile at h
  iterate 12 (all_goals try split at h)
  all_goals simp_all
  all_goals (obtain ⟨hevs, hc⟩ := h; subst hevs; simp_all)

/-- C8 counterexample: a room document with no `name` field whose type
is not direct-message makes `get_room_name` fall off the end and return
`None`; the classifier then emits a MessageEvent whose room name is
null, so not every MessageEvent carries a non-null room. -/
theorem c8_counterexample :
    parse [⟨"r9", none, some "c", none⟩] []
      ⟨"i", "rocketchat.rocketchat_message",
        ⟨some "m9", some "hey", some "r9", some ⟨some "bob"⟩, some 4, none, none, none⟩,
        none, 500⟩
      = .ok ([Event.message "r9" none "4" (some "bob") "hey"], [])
    ∧ (Event.message "r9" none "4" (some "bob") "hey").roomName = none := by
  exact ⟨by decide, by decide⟩

/-- C8 amended: every MessageEvent the classifier emits carries a
non-null room id — the `rid` read from the payload, whose absence would
instead raise `KeyError` — together with the room name `get_room_name`
resolved for it; that room NAME, however, is null whenever the room
document has no `name` field and is not a direct-message room. -/
theorem c8_message_room_from_payload
    (db : List RoomDoc) (cache : MsgCache) (doc : OplogDoc)
    (evs : List Event) (cache2 : MsgCache)
    (rid : String) (rn : Option String) (ts : String) (usern : Option String) (m : String)
    (h : parse db cache doc = .ok (evs, cache2))
    (hmem : Event.message rid rn ts usern m ∈ evs) :
    doc.o.rid = some rid ∧ get_room_name db rid = .ok rn := by
  unfold parse at h
  split at h
  · exact parseInsert_message_fields _ _ _ _ _ _ _ _ _ _ h hmem
  · split at h
    · obtain ⟨e, he⟩ := parseUpdate_error db cache doc.o doc.o2
      rw [he] at h
      cases h
    · split at h
      · exact absurd hmem (by intro hm; exact parseFile_no_message _ _ _ _ _ _ _ _ _ _ h hm)
      · obtain ⟨hevs, -⟩ : [] = evs ∧ cache = cache2 := by simpa using h
        subst hevs
        cases hmem

/-- Witness for C8's amended statement at a concrete classified insert. -/
theorem c8_message_room_from_payload_witness :
    Payload.rid (OplogDoc.o ⟨"i", "rocketchat.rocketchat_message",
        ⟨some "m9", some "hey", some "r9", some ⟨some "bob"⟩, some 4, none, none, none⟩,
        none, 500⟩) = some "r9"
    ∧ get_room_name [⟨"r9", none, some "c", none⟩] "r9" = .ok none :=
  c8_message_room_from_payload
    [⟨"r9", none, some "c", none⟩] []
    ⟨"i", "rocketchat.rocketchat_message",
      ⟨some "m9", some "hey", some "r9", some ⟨some "bob"⟩, some 4, none, none, none⟩,
      none, 500⟩
    [Event.message "r9" none "4" (some "bob") "hey"] []
    "r9" none "4" (some "bob") "hey"
    (by decide) (by simp)

/-- C9: `get_room_name` resolves a found room document to its explicit
`name` field when present, and otherwise, for a direct-message room
(`t == "d"`), to the participant usernames joined in stored order with
the separator `"_x_"`. -/
theorem c9_room_name_resolution (db : List RoomDoc) (rid : String) (room : RoomDoc)
    (h : find_one db rid = some room) :
    (∀ n, room.name = some n → get_room_name db rid = .ok (some n))
    ∧ (room.name = none → room.t = some "d" → ∀ us, room.usernames = some us →
        get_room_name db rid = .ok (some (String.intercalate "_x_" us))) := by
  refine ⟨fun n hn => ?_, fun hn ht us hus => ?_⟩
  · simp [get_room_name, h, hn]
  · simp [get_room_name, h, hn, ht, hus]

/-- Witness for C9: a direct-message room with usernames
["alice", "bob"] resolves to "alice_x_bob". -/
theorem c9_room_name_resolution_witness :
    get_room_name [⟨"rd", none, some "d", some ["alice", "bob"]⟩] "rd"
      = .ok (some "alice_x_bob") :=
  (c9_room_name_resolution [⟨"rd", none, some "d", some ["alice", "bob"]⟩] "rd"
      ⟨"rd", none, some "d", some ["alice", "bob"]⟩ (by decide)).2
    rfl rfl ["alice", "bob"] rfl

/-- C10: an entry that matches none of the three classification guards
— in particular any entry whose namespace does not end with
`rocketchat_message` — produces no event and leaves the edit-context
cache exactly as it was. -/
theorem c10_unmatched_entry_ignored (db : List RoomDoc) (cache : MsgCache) (doc : OplogDoc)
    (h1 : (doc.op == "i" && pyEndsWith doc.ns "rocketchat_message"
            && truthyMsg doc.o.msg) = false)
    (h2 : (doc.op == "u" && pyEndsWith doc.ns "rocketchat_message") = false)
    (h3 : (pyEndsWith doc.ns "rocketchat_message" && doc.o.attachments.isSome) = false) :
    parse db cache doc = .ok ([], cache) := by
  simp [parse, h1, h2, h3]

/-- Witness for C10: an insert into the users collection is ignored. -/
theorem c10_unmatched_entry_ignored_witness :
    parse [] [("k", ("r0", Option.some "carol"))]
      ⟨"i", "rocketchat.users",
        ⟨some "u7", some "x", none, none, none, none, none, none⟩, none, 600⟩
      = .ok ([], [("k", ("r0", Option.some "carol"))]) :=
  c10_unmatched_entry_ignored _ _ _ (by decide) (by decide) (by decide)
